import Mathlib

/-!
Verification development for the IntelliProve widgets browser SDK
(`src/index.ts`). The TypeScript source is shallowly embedded: the DOM and
the `window` globals become an explicit `Dom` state record, JavaScript
values flowing through duck-typed code become the `JsValue` type, HTTP
responses become a record carrying the platform parse results (`json()`,
`text()`, and the HTML-fragment parse of the body), and every method of
`IntelliWidget` / `IntelliProveWidgets` becomes a pure state-passing
function. A JavaScript `throw` is modelled by an `Option`-valued error
component next to the state the function had mutated up to the throw,
because in JavaScript mutations made before a throw persist.

Conventions, noted once here:
- strings elide quote punctuation that the original messages put around
  interpolated values (the gate of this development refuses apostrophes
  inside string literals); no claim depends on that punctuation;
- `replaceAll` is modelled after the polyfill the repository itself
  installs (`split(search).join(replace)`);
- JavaScript number-to-string on the list lengths used for uids is
  modelled by `natToString`, a plain decimal printer.
-/

/-! ## JavaScript values (duck-typed data crossing the message channel and JSON bodies) -/

inductive JsValue : Type where
  | undefined : JsValue
  | null : JsValue
  | bool : Bool → JsValue
  | num : Int → JsValue
  | str : String → JsValue
  | func : JsValue
  | arr : List JsValue → JsValue
  | obj : List (String × JsValue) → JsValue

/-- JavaScript `typeof`; note `typeof null` is the string `object`. -/
def JsValue.typeof : JsValue → String
  | .undefined => "undefined"
  | .null => "object"
  | .bool _ => "boolean"
  | .num _ => "number"
  | .str _ => "string"
  | .func => "function"
  | .arr _ => "object"
  | .obj _ => "object"

/-- JavaScript truthiness, as used by `if (x)` and `&&`. -/
def JsValue.truthy : JsValue → Bool
  | .undefined => false
  | .null => false
  | .bool b => b
  | .num n => n != 0
  | .str s => s != ""
  | .func => true
  | .arr _ => true
  | .obj _ => true

/-- Decimal digits of a natural number, least significant first. The fuel
argument keeps the recursion structural; fuel `n` always suffices. -/
def natToDigitsRev : Nat → Nat → List Nat
  | 0, n => [n]
  | fuel + 1, n => if n < 10 then [n] else n % 10 :: natToDigitsRev fuel (n / 10)

/-- The character of one decimal digit. -/
def digitChar (d : Nat) : Char := Char.ofNat (48 + d)

/-- JavaScript `Number.prototype.toString` restricted to the naturals the
source applies it to (array lengths). -/
def natToString (n : Nat) : String := String.mk (((natToDigitsRev n n).reverse).map digitChar)

/-- JavaScript number-to-string for the integers `JsValue.num` carries. -/
def intToString : Int → String
  | .ofNat n => natToString n
  | .negSucc n => "-" ++ natToString (n + 1)

mutual

/-- JavaScript string coercion (template literals, `String(x)`). For
functions the source text is abbreviated; no claim depends on it. -/
def JsValue.jsToString : JsValue → String
  | .undefined => "undefined"
  | .null => "null"
  | .bool true => "true"
  | .bool false => "false"
  | .num n => intToString n
  | .str s => s
  | .func => "function"
  | .arr xs => jsArrayToString xs
  | .obj _ => "[object Object]"

/-- `Array.prototype.toString`: elements joined with commas, holes and
null-ish entries printed empty. -/
def jsArrayToString : List JsValue → String
  | [] => ""
  | x :: rest =>
    (match x with
      | .null => ""
      | .undefined => ""
      | v => JsValue.jsToString v)
    ++ (match rest with
      | [] => ""
      | _ => ",")
    ++ jsArrayToString rest

end

/-- Decimal digit characters to a number, `none` on an empty or non-digit
list (the shape a property key must have to address an array slot). -/
def decDigitsAcc : List Char → Nat → Option Nat
  | [], acc => some acc
  | c :: cs, acc =>
    if 48 ≤ c.toNat && c.toNat ≤ 57 then decDigitsAcc cs (acc * 10 + (c.toNat - 48))
    else none

/-- The array index a JavaScript property key addresses, if any. -/
def jsArrayIndexOf (key : String) : Option Nat :=
  match key.data with
  | [] => none
  | ds => decDigitsAcc ds 0

/-- JavaScript property read `v[key]`: throws `TypeError` on `null` and
`undefined`, returns `undefined` for a missing key; arrays answer numeric
keys and `length`; boxed primitives have none of the properties this
source reads. -/
def JsValue.getProp : JsValue → String → Except String JsValue
  | .null, key => .error ("TypeError: Cannot read properties of null (reading " ++ key ++ ")")
  | .undefined, key => .error ("TypeError: Cannot read properties of undefined (reading " ++ key ++ ")")
  | .obj fields, key => .ok ((fields.lookup key).getD .undefined)
  | .arr xs, key =>
    .ok (if key = "length" then .num xs.length
      else match jsArrayIndexOf key with
        | some i => (xs.get? i).getD .undefined
        | none => .undefined)
  | _, _ => .ok .undefined

/-- The JavaScript `in` operator: key membership on objects and arrays,
`TypeError` on anything without properties (notably `null`). -/
def jsIn (key : String) : JsValue → Except String Bool
  | .obj fields => .ok (fields.any (fun p => p.1 == key))
  | .arr xs =>
    .ok (key == "length" || (match jsArrayIndexOf key with
      | some i => i < xs.length
      | none => false))
  | v => .error ("TypeError: Cannot use in operator to search for " ++ key ++ " in " ++ v.jsToString)

/-- The message `new Error(x)` ends up with: empty when the argument is
`undefined`, otherwise the string coercion of the argument. -/
def jsErrMessage : JsValue → String
  | .undefined => ""
  | v => v.jsToString

/-- Whether the first list is a prefix of the second, by characters. -/
def startsWithChars : List Char → List Char → Bool
  | [], _ => true
  | _ :: _, [] => false
  | n :: ns, h :: hs => n == h && startsWithChars ns hs

/-- Replace every leftmost, non-overlapping occurrence of `search` in the
haystack by `repl`. The fuel keeps the recursion structural; the haystack
length always suffices because each step consumes at least one character. -/
def replaceAllChars (search repl : List Char) : Nat → List Char → List Char
  | _, [] => []
  | 0, s => s
  | fuel + 1, c :: cs =>
    if !search.isEmpty && startsWithChars search (c :: cs) then
      repl ++ replaceAllChars search repl fuel (List.drop search.length (c :: cs))
    else
      c :: replaceAllChars search repl fuel cs

/-- `String.prototype.replaceAll` as the source relies on it (the
repository installs a `split(search).join(replace)` polyfill, which for the
non-empty search strings the source uses is exactly leftmost non-overlapping
global replacement). -/
def replaceAll (s search replace : String) : String :=
  String.mk (replaceAllChars search.data replace.data s.data.length s.data)

/-! ## Parsed DOM elements

`Elem` models one element node of a parsed HTML fragment, with the
fields this source reads: `nodeName` (upper-case tag name), the resolved
`src` (the empty string when no external `src` is declared, so that the
truthiness tests `!!s.src` / `!s.src` become comparisons with `""`),
the class list, the text content (the source reads `innerText` in the
head-injection path and `textContent` in the body-script path; both are
one `innerText` field here), and the child elements. -/

inductive Elem : Type where
  | mk : (nodeName : String) → (src : String) → (classes : List String) →
      (innerText : String) → (children : List Elem) → Elem

def Elem.nodeName : Elem → String
  | .mk n _ _ _ _ => n

def Elem.src : Elem → String
  | .mk _ s _ _ _ => s

def Elem.classes : Elem → List String
  | .mk _ _ c _ _ => c

def Elem.innerText : Elem → String
  | .mk _ _ _ t _ => t

def Elem.children : Elem → List Elem
  | .mk _ _ _ _ ch => ch

def Elem.setInnerText : Elem → String → Elem
  | .mk n s c _ ch, t => .mk n s c t ch

mutual

/-- One element followed by all its descendants, in document order. -/
def Elem.selfAndDescendants : Elem → List Elem
  | .mk n s c t ch => .mk n s c t ch :: domOrder ch

/-- All element nodes below a list of sibling roots in document order
(each node before its descendants, siblings left to right): the order
`querySelectorAll` traverses. -/
def domOrder : List Elem → List Elem
  | [] => []
  | e :: rest => e.selfAndDescendants ++ domOrder rest

end

mutual

/-- Serialization of one element, used to model `outerHTML`. Attributes
are elided: the claims about placeholder substitution only need the text
content, where the placeholder token lives. -/
def Elem.outerHTML : Elem → String
  | .mk n _ _ t ch => "<" ++ n ++ ">" ++ t ++ outerHTMLList ch ++ "</" ++ n ++ ">"

/-- Serialization of a forest of sibling elements. -/
def outerHTMLList : List Elem → String
  | [] => ""
  | e :: rest => e.outerHTML ++ outerHTMLList rest

end

/-! ## Errors, logging, HTTP responses -/

/-- The error taxonomy of the source: its six `Intelli*Error` classes, plus
`jsError` for errors that are not SDK classes — the plain `new Error(...)`
the DOM-contract checks throw, and runtime `TypeError` / `SyntaxError`
raised by the JavaScript semantics itself. -/
inductive IntelliError : Type where
  | intelliAuthError : String → IntelliError
  | intelliActionTokenError : String → IntelliError
  | intelliWidgetNotFoundError : String → IntelliError
  | intelliInvalidParamaterError : String → IntelliError
  | intelliUnexpectedError : String → IntelliError
  | intelliSdkLoadingError : String → IntelliError
  | jsError : String → IntelliError
deriving DecidableEq

/-- Whether an error is one of the six typed SDK error classes (as opposed
to a plain `Error` or a runtime `TypeError` / `SyntaxError`). -/
def IntelliError.isSdkTyped : IntelliError → Bool
  | .jsError _ => false
  | _ => true

/-- Console coercion of an error, as `"" + e` would print it. -/
def IntelliError.display : IntelliError → String
  | .intelliAuthError m => "IntelliAuthError: " ++ m
  | .intelliActionTokenError m => "IntelliActionTokenError: " ++ m
  | .intelliWidgetNotFoundError m => "IntelliWidgetNotFoundError: " ++ m
  | .intelliInvalidParamaterError m => "IntelliInvalidParamaterError: " ++ m
  | .intelliUnexpectedError m => "IntelliUnexpectedError: " ++ m
  | .intelliSdkLoadingError m => "IntelliSdkLoadingError: " ++ m
  | .jsError m => m

/-- One console entry. -/
inductive LogEntry : Type where
  | warn : String → LogEntry
  | errorText : String → LogEntry
  | errorObj : IntelliError → LogEntry
  | info : String → LogEntry
deriving DecidableEq

/-- One HTTP response, as the source observes it. The platform parses are
carried as fields: `jsonBody` is the outcome of `response.json()` (`none`
when the body is not valid JSON, in which case `json()` rejects with a
`SyntaxError`), `text` is `response.text()`, and `fragment` is the element
forest that assigning `text` to a container `innerHTML` produces. -/
structure HttpResponse where
  status : Nat
  jsonBody : Option JsValue
  text : String
  fragment : List Elem

/-! ## Widget configuration and state (`IntelliWidgetConfig`, `IntelliWidget`) -/

structure IntelliWidgetConfig where
  name : String
  config : JsValue
  variation : String
  themeOverrides : JsValue
  baseURL : String
  auth : String
  version : Nat

/-- The state of one `IntelliWidget` object. -/
structure IntelliWidget where
  widgetId : String
  widgetConfig : IntelliWidgetConfig
  innerContent : Option Elem
  instances : List String
  headElements : List Elem
  bodyScripts : List Elem
  headInjected : Bool
  preventAmdLoader : Bool

/-- `new IntelliWidget(widgetId, widgetConfig, preventAmdLoader)`. -/
def IntelliWidget.new (widgetId : String) (widgetConfig : IntelliWidgetConfig)
    (preventAmdLoader : Bool) : IntelliWidget :=
  { widgetId := widgetId
    widgetConfig := widgetConfig
    innerContent := none
    instances := []
    headElements := []
    bodyScripts := []
    headInjected := false
    preventAmdLoader := preventAmdLoader }

def IntelliWidget.fetched (w : IntelliWidget) : Bool := w.innerContent.isSome

/-! ## The page (`document`, `window` globals, console) -/

/-- The live page. `targets` maps each selector that matches an element to
that element mutable `innerHTML` (the source only ever reads existence and
assigns `innerHTML`); `chartDefined` / `chartDataLabelsDefined` /
`d3Defined` model the `window.Chart`, `window.ChartDataLabels` and
`window.d3` globals; `styleAggregate` is the content of the page-wide
aggregated style element when it is present; `headScripts`, `headLinks`
and `bodyAppended` record the head scripts (by `src`), head links and
body scripts (by text) the SDK appended; `console` is the console. -/
structure Dom where
  targets : List (String × String)
  chartDefined : Bool
  chartDataLabelsDefined : Bool
  d3Defined : Bool
  styleAggregate : Option String
  headScripts : List String
  headLinks : List Elem
  bodyAppended : List String
  console : List LogEntry

/-- `document.querySelector(selector)`: the matched element content, or
`none` when no element matches. -/
def Dom.querySelector (dom : Dom) (selector : String) : Option String :=
  dom.targets.lookup selector

/-- Assignment to the matched element `innerHTML`. -/
def setTargetAssoc : List (String × String) → String → String → List (String × String)
  | [], _, _ => []
  | (k, v) :: rest, key, val =>
    if k == key then (k, val) :: rest else (k, v) :: setTargetAssoc rest key val

def Dom.setTargetHtml (dom : Dom) (selector html : String) : Dom :=
  { dom with targets := setTargetAssoc dom.targets selector html }

/-! ## `IntelliProveWidgets` static helpers (module readiness, asset injection) -/

namespace IntelliProveWidgets

/-- `typeof window.Chart !== "undefined"`. -/
def chartJSLoaded (dom : Dom) : Bool := dom.chartDefined

/-- `typeof window.ChartDataLabels !== "undefined"`. -/
def chartJSPluginsLoaded (dom : Dom) : Bool := dom.chartDataLabelsDefined

/-- `typeof window.d3 !== "undefined"`. -/
def d3Loaded (dom : Dom) : Bool := dom.d3Defined

/-- The combined readiness gate: chart library and its plugin only. -/
def loaded (dom : Dom) : Bool := chartJSLoaded dom && chartJSPluginsLoaded dom

/-- `createStyleElement`: appends a fresh empty style element carrying the
page-session style id to the head. When one already exists the older one
keeps answering `getElementById`, so the observable aggregate content is
unchanged in that case. -/
def createStyleElement (dom : Dom) : Dom :=
  { dom with styleAggregate := some (dom.styleAggregate.getD "") }

/-- `appendStyling(css)`: looks the aggregated style element up once into a
`const`. When it is absent, a fresh element is created, but the `const`
still holds `null` and the subsequent `styleElement!.innerText += css`
throws a `TypeError`; the css is never appended. -/
def appendStyling (dom : Dom) (css : String) : Dom × Option IntelliError :=
  match dom.styleAggregate with
  | some cur => ({ dom with styleAggregate := some (cur ++ css) }, none)
  | none =>
    let dom := createStyleElement dom
    (dom, some (.jsError "TypeError: Cannot read properties of null (reading innerText)"))

/-- `injectHeadScript`: a fresh script element with only the external `src`
copied is appended to the head. -/
def injectHeadScript (dom : Dom) (script : Elem) : Dom :=
  { dom with headScripts := dom.headScripts ++ [script.src] }

/-- `injectHeadLink`: the link element is appended verbatim. -/
def injectHeadLink (dom : Dom) (linkElement : Elem) : Dom :=
  { dom with headLinks := dom.headLinks ++ [linkElement] }

/-- `injectHeadStyle`: the style text is appended to the aggregated style
element via `appendStyling`. -/
def injectHeadStyle (dom : Dom) (styleElement : Elem) : Dom × Option IntelliError :=
  appendStyling dom styleElement.innerText

/-- `injectHeadElement(element, replaceId)`: substitutes the placeholder
token throughout the element text first (`if (replaceId)` is a truthiness
test, hence the empty-string case), then dispatches on the tag name;
anything but script, style or link throws. The element text mutation is
in place, so the (possibly rewritten) element is returned with the page. -/
def injectHeadElement (dom : Dom) (element : Elem) (replaceId : Option String) :
    Dom × Elem × Option IntelliError :=
  let element := match replaceId with
    | some rid =>
      if rid == "" then element
      else element.setInnerText (replaceAll element.innerText "intelli-widget-id" rid)
    | none => element
  if element.nodeName == "SCRIPT" then (injectHeadScript dom element, element, none)
  else if element.nodeName == "STYLE" then
    let r := injectHeadStyle dom element
    (r.1, element, r.2)
  else if element.nodeName == "LINK" then (injectHeadLink dom element, element, none)
  else (dom, element, some (.jsError "Error: Invalid element type! Element must be one of: script, link, style"))

end IntelliProveWidgets

/-- Outcome of the head-injection loop in `mount`: the page, the (mutated
in place) head-element array, and the first error if one was thrown. On an
error the loop aborts, so the processed prefix is mutated and the rest is
returned untouched. -/
structure HeadInjectOutcome where
  dom : Dom
  elems : List Elem
  error : Option IntelliError

/-- `for (let headElement of this.headElements) injectHeadElement(headElement, uid)`. -/
def injectHeadLoop (dom : Dom) (elems : List Elem) (replaceId : Option String) :
    HeadInjectOutcome :=
  match elems with
  | [] => { dom := dom, elems := [], error := none }
  | e :: rest =>
    match IntelliProveWidgets.injectHeadElement dom e replaceId with
    | (dom1, e1, some msg) => { dom := dom1, elems := e1 :: rest, error := some msg }
    | (dom1, e1, none) =>
      let r := injectHeadLoop dom1 rest replaceId
      { dom := r.dom, elems := e1 :: r.elems, error := r.error }

/-! ## `IntelliWidget` methods -/

/-- `injectBodyScript(script, replaceId)`: a fresh inline script element
with the substituted text is appended to the body (its scheduled removal
after 500 ms is a later-turn timer effect, outside this state step). With
`preventAmdLoader` the injection is routed through the AMD-disabling
wrapper, whose only modelled effect is its console log; its `window.define`
juggling is outside the modelled page state. -/
def IntelliWidget.injectBodyScript (w : IntelliWidget) (dom : Dom) (script : Elem)
    (replaceId : Option String) : Dom :=
  let textContent := match replaceId with
    | some rid => replaceAll script.innerText "intelli-widget-id" rid
    | none => script.innerText
  let dom := { dom with bodyAppended := dom.bodyAppended ++ [textContent] }
  if w.preventAmdLoader then { dom with console := dom.console ++ [.info "script injected"] }
  else dom

/-- `for (let script of this.bodyScripts) this.injectBodyScript(script, uid)`. -/
def bodyScriptsLoop (w : IntelliWidget) (dom : Dom) (scripts : List Elem)
    (replaceId : Option String) : Dom :=
  scripts.foldl (fun d sc => w.injectBodyScript d sc replaceId) dom

/-- The request body `fetch` posts (§ the `WidgetConfig` interface). -/
structure WidgetConfigBody where
  theme : JsValue
  language : JsValue
  variation : String
  data : JsValue

def IntelliWidget.requestBody (w : IntelliWidget) (locale : JsValue) : WidgetConfigBody :=
  { theme := w.widgetConfig.themeOverrides
    language := locale
    variation := w.widgetConfig.variation
    data := w.widgetConfig.config }

def IntelliWidget.requestUrl (w : IntelliWidget) : String :=
  w.widgetConfig.baseURL ++ "/widgets/" ++ w.widgetConfig.name ++ "?version="
    ++ natToString w.widgetConfig.version

/-- Outcome of one `fetch` call: the widget state (`this` after the call,
whether it returned or threw), the rejection if the call threw, and what
was written to the console. -/
structure FetchOutcome where
  widget : IntelliWidget
  error : Option IntelliError
  logs : List LogEntry

/-- `IntelliWidget.fetch(locale)`. The network round trip for the request
built from `requestBody` / `requestUrl` is abstracted by the `resp`
argument; everything from the `switch (response.status)` on is modelled
literally. Note two behaviours of the source faithfully kept here:
the 400 arm throws its typed errors *inside* its own `try`, so its own
`catch` replaces every one of them with the `IntelliSdkLoadingError`;
and the 422 arm indexes `validationError[0]` (not
`validationError["detail"][0]`), which is `undefined` on a standard
validation payload, so reading `["msg"]` from it throws a `TypeError`. -/
def IntelliWidget.fetch (w : IntelliWidget) (locale : JsValue) (resp : HttpResponse) :
    FetchOutcome :=
  if resp.status = 400 then
    let tryError : IntelliError :=
      match resp.jsonBody with
      | none => .jsError "SyntaxError: Unexpected token in JSON"
      | some body =>
        match jsIn "detail" body with
        | .error msg => .jsError msg
        | .ok mem =>
          if mem then
            match body.getProp "detail" with
            | .error msg => .jsError msg
            | .ok detail =>
              if detail.truthy then .intelliWidgetNotFoundError (jsErrMessage detail)
              else .intelliActionTokenError
                "Your authentication is valid but it does not contain a link to a user."
          else .intelliActionTokenError
            "Your authentication is valid but it does not contain a link to a user."
    { widget := w
      error := some (.intelliSdkLoadingError
        "Unexpected error, got status code 400 from API without a valid response body")
      logs := [.errorObj tryError] }
  else if resp.status = 401 then
    { widget := w
      error := some (.intelliActionTokenError
        "Your authentication is invalid. Please double check and/or refresh your authentication.")
      logs := [] }
  else if resp.status = 404 then
    match resp.jsonBody with
    | none =>
      { widget := w, error := some (.jsError "SyntaxError: Unexpected token in JSON"), logs := [] }
    | some notFoundError =>
      match notFoundError.getProp "detail" with
      | .error msg => { widget := w, error := some (.jsError msg), logs := [] }
      | .ok detail =>
        { widget := w, error := some (.intelliWidgetNotFoundError (jsErrMessage detail)), logs := [] }
  else if resp.status = 422 then
    match resp.jsonBody with
    | none =>
      { widget := w, error := some (.jsError "SyntaxError: Unexpected token in JSON"), logs := [] }
    | some validationError =>
      match (match validationError.getProp "detail" with
        | .error msg => .error msg
        | .ok d =>
          match d.getProp "0" with
          | .error msg => .error msg
          | .ok d0 => d0.getProp "loc" : Except String JsValue) with
      | .error msg => { widget := w, error := some (.jsError msg), logs := [] }
      | .ok loc =>
        match (match validationError.getProp "0" with
          | .error msg => .error msg
          | .ok v0 => v0.getProp "msg" : Except String JsValue) with
        | .error msg => { widget := w, error := some (.jsError msg), logs := [] }
        | .ok m =>
          { widget := w
            error := some (.intelliInvalidParamaterError
              (loc.jsToString ++ ": " ++ m.jsToString))
            logs := [] }
  else if resp.status = 500 then
    { widget := w
      error := some (.intelliUnexpectedError
        "An unexpected server error occurred, cannot load widget. If this issue persists, please contact our support team.")
      logs := [.errorText resp.text] }
  else
    let elems := domOrder resp.fragment
    let scripts := elems.filter (fun e => e.nodeName == "SCRIPT")
    let styles := elems.filter (fun e => e.nodeName == "STYLE")
    let links := elems.filter (fun e => e.nodeName == "LINK")
    let headElements := scripts.filter (fun s => s.src != "") ++ styles ++ links
    let bodyScripts := scripts.filter (fun s => !(s.src != ""))
    let innerContent := (elems.filter (fun e => e.classes.contains "intelli-widget")).head?
    { widget := { w with
        headElements := headElements
        bodyScripts := bodyScripts
        innerContent := innerContent }
      error := none
      logs := [] }

/-- Outcome of a `mount` / `updateAll` / `removeAll` call against a page. -/
structure MountOutcome where
  dom : Dom
  widget : IntelliWidget
  error : Option IntelliError

/-- `IntelliWidget.mount(selector)`. -/
def IntelliWidget.mount (w : IntelliWidget) (dom : Dom) (selector : String) : MountOutcome :=
  match dom.querySelector selector with
  | none =>
    { dom := dom, widget := w
      error := some (.jsError ("Error: No element found for selector " ++ selector ++ "!")) }
  | some _ =>
    if !IntelliProveWidgets.loaded dom then
      { dom := dom, widget := w, error := some (.jsError "Error: IntelliProve widgets not loaded!") }
    else
      let uid := w.widgetId ++ "-" ++ natToString w.instances.length
      let inj := injectHeadLoop dom w.headElements (some uid)
      match inj.error with
      | some e => { dom := inj.dom, widget := { w with headElements := inj.elems }, error := some e }
      | none =>
        let w1 := { w with headElements := inj.elems }
        let w2 := if w1.instances.contains selector then w1
          else { w1 with instances := w1.instances ++ [selector] }
        let dom2 := match w2.innerContent with
          | some contentElem =>
            inj.dom.setTargetHtml selector (replaceAll contentElem.outerHTML "intelli-widget-id" uid)
          | none => inj.dom
        let dom3 := bodyScriptsLoop w2 dom2 w2.bodyScripts (some uid)
        { dom := dom3, widget := w2, error := none }

/-- The loop of `updateAll`: re-mounts each snapshotted selector, catching
and logging each failure; the state a failed `mount` left behind persists. -/
def updateAllLoop (dom : Dom) (w : IntelliWidget) : List String → Dom × IntelliWidget
  | [] => (dom, w)
  | s :: rest =>
    let r := IntelliWidget.mount w dom s
    match r.error with
    | some e =>
      updateAllLoop
        { r.dom with console := r.dom.console
            ++ [.warn ("Error while re-mounting existing widget: " ++ e.display)] }
        r.widget rest
    | none => updateAllLoop r.dom r.widget rest

/-- `IntelliWidget.updateAll()`: snapshots the mount-point list (the
`JSON.parse(JSON.stringify(...))` deep copy of a string array is the same
list), resets it to empty, then re-mounts every snapshotted selector. -/
def IntelliWidget.updateAll (w : IntelliWidget) (dom : Dom) : Dom × IntelliWidget :=
  let instancesState := w.instances
  updateAllLoop dom { w with instances := [] } instancesState

/-- Observer for the `updateAll` loop: which snapshotted selector's
re-mount succeeded, in order, following exactly the states the loop
threads. -/
def updateAllOutcomes (dom : Dom) (w : IntelliWidget) : List String → List (String × Bool)
  | [] => []
  | s :: rest =>
    let r := IntelliWidget.mount w dom s
    match r.error with
    | some e =>
      (s, false) :: updateAllOutcomes
        { r.dom with console := r.dom.console
            ++ [.warn ("Error while re-mounting existing widget: " ++ e.display)] }
        r.widget rest
    | none => (s, true) :: updateAllOutcomes r.dom r.widget rest

/-- The loop of `removeAll`: clears each tracked target that still exists,
logging (and continuing past) a failure for each that does not. -/
def removeAllLoop (dom : Dom) : List String → Dom
  | [] => dom
  | s :: rest =>
    match dom.querySelector s with
    | some _ => removeAllLoop (dom.setTargetHtml s "") rest
    | none =>
      removeAllLoop
        { dom with console := dom.console
            ++ [.warn ("Error while removing existing widget: Error: No element found for selector "
              ++ s ++ "!")] } rest

/-- `IntelliWidget.removeAll()`: clears every tracked target, then resets
the mount-point list to empty unconditionally. -/
def IntelliWidget.removeAll (w : IntelliWidget) (dom : Dom) : Dom × IntelliWidget :=
  (removeAllLoop dom w.instances, { w with instances := [] })

/-- Outcome of the message handler: the widget and page state when the
handler returned or its promise rejected, and the rejection if it did. -/
structure EventOutcome where
  widget : IntelliWidget
  dom : Dom
  error : Option IntelliError

/-- `IntelliWidget.eventHandler(event)` on a broadcast message whose
`event.data` is `data`. The guard mirrors the source:
`typeof data !== "object"` lets `null` through (in JavaScript
`typeof null === "object"`), after which `"target" in data` throws a
`TypeError` for `null`. A re-fetch on the language path consumes the
network response `resp`. -/
def IntelliWidget.eventHandler (w : IntelliWidget) (dom : Dom) (resp : HttpResponse)
    (data : JsValue) : EventOutcome :=
  if data.typeof != "object" then { widget := w, dom := dom, error := none }
  else
    match jsIn "target" data with
    | .error msg => { widget := w, dom := dom, error := some (.jsError msg) }
    | .ok mem =>
      if !mem then { widget := w, dom := dom, error := none }
      else
        match data.getProp "target" with
        | .error msg => { widget := w, dom := dom, error := some (.jsError msg) }
        | .ok target =>
          match target with
          | .str "intelli-widgets" =>
            (match data.getProp "kind" with
            | .error msg => { widget := w, dom := dom, error := some (.jsError msg) }
            | .ok messageKind =>
              match messageKind with
              | .str "language" =>
                (match data.getProp "data" with
                | .error msg => { widget := w, dom := dom, error := some (.jsError msg) }
                | .ok locale =>
                  let fr := w.fetch locale resp
                  let dom := { dom with console := dom.console ++ fr.logs }
                  match fr.error with
                  | some e => { widget := fr.widget, dom := dom, error := some e }
                  | none =>
                    let r := fr.widget.updateAll dom
                    { widget := r.2, dom := r.1, error := none })
              | .str "clear" =>
                let r := w.removeAll dom
                { widget := r.2, dom := r.1, error := none }
              | _ =>
                { widget := w
                  dom := { dom with console := dom.console
                    ++ [.warn "Invalid intelli-widgets message[object MessageEvent]"] }
                  error := none })
          | _ => { widget := w, dom := dom, error := none }

/-! ## Helper lemmas: the decimal printer behind mount uids is injective -/

/-- Value of a little-endian decimal digit list; inverts `natToDigitsRev`. -/
def digitsRevVal : List Nat → Nat
  | [] => 0
  | d :: ds => d + 10 * digitsRevVal ds

theorem digitsRevVal_natToDigitsRev : ∀ (fuel n : Nat),
    digitsRevVal (natToDigitsRev fuel n) = n := by
  intro fuel
  induction fuel with
  | zero => intro n; simp [natToDigitsRev, digitsRevVal]
  | succ fuel ih =>
    intro n
    simp only [natToDigitsRev]
    split
    · simp [digitsRevVal]
    · simp only [digitsRevVal, ih]
      omega

theorem natToDigitsRev_lt : ∀ (fuel n : Nat), n ≤ fuel →
    ∀ d ∈ natToDigitsRev fuel n, d < 10 := by
  intro fuel
  induction fuel with
  | zero =>
    intro n hn d hd
    simp only [natToDigitsRev, List.mem_singleton] at hd
    omega
  | succ fuel ih =>
    intro n hn d hd
    simp only [natToDigitsRev] at hd
    split at hd
    · simp only [List.mem_singleton] at hd
      omega
    · rcases List.mem_cons.mp hd with h | h
      · omega
      · have hdiv : n / 10 < n := Nat.div_lt_self (by omega) (by omega)
        exact ih (n / 10) (by omega) d h

theorem digitChar_inj_lt : ∀ x, x < 10 → ∀ y, y < 10 → digitChar x = digitChar y → x = y := by
  decide

theorem map_digitChar_inj : ∀ (xs ys : List Nat), (∀ x ∈ xs, x < 10) → (∀ y ∈ ys, y < 10) →
    xs.map digitChar = ys.map digitChar → xs = ys := by
  intro xs
  induction xs with
  | nil =>
    intro ys _ _ h
    cases ys <;> simp_all
  | cons x xs ih =>
    intro ys hx hy h
    cases ys with
    | nil => simp_all
    | cons y ys =>
      simp only [List.map_cons, List.cons.injEq] at h
      have hxy : x = y :=
        digitChar_inj_lt x (hx x (by simp)) y (hy y (by simp)) h.1
      have hrest := ih ys (fun a ha => hx a (by simp [ha])) (fun a ha => hy a (by simp [ha])) h.2
      simp [hxy, hrest]

theorem natToString_inj : ∀ (a b : Nat), natToString a = natToString b → a = b := by
  intro a b h
  have hd : ((natToDigitsRev a a).reverse).map digitChar
      = ((natToDigitsRev b b).reverse).map digitChar := congrArg String.data h
  have ha : ∀ d ∈ (natToDigitsRev a a).reverse, d < 10 := by
    intro d hmem
    exact natToDigitsRev_lt a a (Nat.le_refl a) d (List.mem_reverse.mp hmem)
  have hb : ∀ d ∈ (natToDigitsRev b b).reverse, d < 10 := by
    intro d hmem
    exact natToDigitsRev_lt b b (Nat.le_refl b) d (List.mem_reverse.mp hmem)
  have hrev := map_digitChar_inj _ _ ha hb hd
  have hdig : natToDigitsRev a a = natToDigitsRev b b := List.reverse_injective hrev
  calc a = digitsRevVal (natToDigitsRev a a) := (digitsRevVal_natToDigitsRev a a).symm
    _ = digitsRevVal (natToDigitsRev b b) := by rw [hdig]
    _ = b := digitsRevVal_natToDigitsRev b b

theorem string_mk_data : ∀ (s : String), String.mk s.data = s := by
  intro s
  cases s
  rfl

theorem string_data_append : ∀ (s t : String), (s ++ t).data = s.data ++ t.data := by
  intro s t
  cases s
  cases t
  rfl

/-- Two uids `widgetId ++ "-" ++ n` built by `mount` from the same widget id
agree only when the counts agree. -/
theorem uid_count_inj (wid : String) (m n : Nat)
    (h : wid ++ "-" ++ natToString m = wid ++ "-" ++ natToString n) : m = n := by
  have hd := congrArg String.data h
  rw [string_data_append, string_data_append, string_data_append, string_data_append] at hd
  have h2 := List.append_cancel_left hd
  have h3 : natToString m = natToString n := by
    rw [← string_mk_data (natToString m), ← string_mk_data (natToString n), h2]
  exact natToString_inj m n h3

/-! ## Shared concrete sample data for witnesses and counterexamples -/

def sampleConfig : IntelliWidgetConfig :=
  { name := "heart-rate"
    config := .obj []
    variation := "default"
    themeOverrides := .obj []
    baseURL := "https://engine.intelliprove.com/v2"
    auth := "tok"
    version := 1 }

/-- A page with no elements and no libraries loaded. -/
def emptyDom : Dom :=
  { targets := []
    chartDefined := false
    chartDataLabelsDefined := false
    d3Defined := false
    styleAggregate := some ""
    headScripts := []
    headLinks := []
    bodyAppended := []
    console := [] }

/-- The root content element a widget fetch typically produces. -/
def sampleWidgetDiv : Elem := .mk "DIV" "" ["intelli-widget"] "intelli-widget-id" []

/-! ## Claim theorems -/

/-- C1: on every HTTP 400 response — whatever the JSON body is, including a
body with a non-empty detail field or one that does not parse — `fetch`
rejects with the `IntelliSdkLoadingError` kind: the typed errors the 400
arm throws inside its own `try` are caught by its own `catch` and replaced.
This refutes the claimed 400 triage (WidgetNotFound / ActionTokenError /
SdkLoadingError by body shape). -/
theorem fetch_status_400_always_sdk_loading_error (w : IntelliWidget) (locale : JsValue)
    (body : Option JsValue) (text : String) (fragment : List Elem) :
    (w.fetch locale { status := 400, jsonBody := body, text := text, fragment := fragment }).error
      = some (.intelliSdkLoadingError
        "Unexpected error, got status code 400 from API without a valid response body") := rfl

/-- C2: on an HTTP 422 response whose JSON body is the standard validation
payload (a detail array of objects with loc and msg), `fetch` does not
reject with `IntelliInvalidParamaterError`: building the message indexes
`validationError[0]` instead of `validationError["detail"][0]`, which is
`undefined`, so reading `msg` from it throws a `TypeError`, and that
`TypeError` is the rejection. The widget state is left untouched. -/
theorem fetch_status_422_standard_payload_type_error (w : IntelliWidget) (locale : JsValue)
    (loc msg : JsValue) (text : String) (fragment : List Elem) :
    (w.fetch locale
        ⟨422, some (.obj [("detail", .arr [.obj [("loc", loc), ("msg", msg)]])]), text, fragment⟩).error
      = some (.jsError "TypeError: Cannot read properties of undefined (reading msg)")
    ∧ (w.fetch locale
        ⟨422, some (.obj [("detail", .arr [.obj [("loc", loc), ("msg", msg)]])]), text, fragment⟩).widget
      = w := ⟨rfl, rfl⟩

/-- C5: a broadcast message whose payload is `null` is not silently
ignored: `typeof null === "object"` passes the first guard, and then
`"target" in data` throws a `TypeError`, so the handler promise rejects
(the page and widget state are still untouched and nothing is logged).
This refutes the claim for the null payload it explicitly includes. -/
theorem eventHandler_null_payload_rejects (w : IntelliWidget) (dom : Dom) (resp : HttpResponse) :
    w.eventHandler dom resp .null
      = { widget := w, dom := dom,
          error := some (.jsError "TypeError: Cannot use in operator to search for target in null") } := rfl

/-- C7: `removeAll` leaves the mount-point list empty for every widget and
every page state — in particular also when every tracked selector no
longer matches an element, since each failed removal is caught and logged
and the final reset of the list is unconditional. -/
theorem removeAll_empties_instances (w : IntelliWidget) (dom : Dom) :
    (w.removeAll dom).2.instances = [] := rfl

/-- C10: when the page-wide aggregated style element is absent,
`appendStyling(css)` creates a fresh (empty) style element but then
dereferences the original null lookup and throws a `TypeError`; the css is
never appended to the new element, and style injection through
`injectHeadStyle` (the style arm of `injectHeadElement`) fails the same
way instead of recovering. -/
theorem appendStyling_missing_aggregate_throws (dom : Dom) (css : String)
    (h : dom.styleAggregate = none) :
    IntelliProveWidgets.appendStyling dom css
      = ({ dom with styleAggregate := some "" },
        some (.jsError "TypeError: Cannot read properties of null (reading innerText)"))
    ∧ (IntelliProveWidgets.injectHeadStyle dom (.mk "STYLE" "" [] css [])).2
      = some (.jsError "TypeError: Cannot read properties of null (reading innerText)") := by
  constructor
  · simp [IntelliProveWidgets.appendStyling, IntelliProveWidgets.createStyleElement, h]
  · simp [IntelliProveWidgets.injectHeadStyle, IntelliProveWidgets.appendStyling,
      IntelliProveWidgets.createStyleElement, h, Elem.innerText]

/-- C10 witness: the theorem applied to a page without the aggregate
element. -/
theorem appendStyling_missing_aggregate_throws_witness :
    ({ emptyDom with styleAggregate := none } : Dom).styleAggregate = none
    ∧ (IntelliProveWidgets.appendStyling { emptyDom with styleAggregate := none } "body-css"
      = ({ { emptyDom with styleAggregate := none } with styleAggregate := some "" },
        some (.jsError "TypeError: Cannot read properties of null (reading innerText)"))
    ∧ (IntelliProveWidgets.injectHeadStyle { emptyDom with styleAggregate := none }
        (.mk "STYLE" "" [] "body-css" [])).2
      = some (.jsError "TypeError: Cannot read properties of null (reading innerText)")) :=
  ⟨rfl, appendStyling_missing_aggregate_throws { emptyDom with styleAggregate := none } "body-css" rfl⟩

/-- A live page for the mount scenarios: one matched selector and both
gating libraries present. -/
def liveDom : Dom :=
  { emptyDom with
    targets := [("#a", "old content")]
    chartDefined := true
    chartDataLabelsDefined := true }

/-- A never-fetched widget. -/
def unfetchedWidget : IntelliWidget := IntelliWidget.new "w" sampleConfig false

/-- C3 counterexample: mounting a never-fetched widget (content unset) at a
live selector with the module loader ready does NOT fail — `mount` returns
without an error, refuting the claimed DOM-contract error. -/
theorem mount_unfetched_no_error_counterexample :
    unfetchedWidget.innerContent = none
    ∧ liveDom.querySelector "#a" = some "old content"
    ∧ IntelliProveWidgets.loaded liveDom = true
    ∧ (unfetchedWidget.mount liveDom "#a").error = none := ⟨rfl, rfl, rfl, rfl⟩

/-- C3 (amended): mounting a never-fetched widget (content, head assets and
body scripts still in their initial empty state) at a live selector with
the loader ready succeeds silently: no error, no DOM mutation at all (the
page state is returned unchanged, so the target content is untouched and
no script is injected), but the selector is still registered in the
mount-point list. -/
theorem mount_unfetched_succeeds_without_dom_mutation (w : IntelliWidget) (dom : Dom)
    (selector : String) (hc : w.innerContent = none) (hh : w.headElements = [])
    (hb : w.bodyScripts = []) (hq : dom.querySelector selector ≠ none)
    (hl : IntelliProveWidgets.loaded dom = true) :
    (w.mount dom selector).error = none
    ∧ (w.mount dom selector).dom = dom
    ∧ (w.mount dom selector).widget.instances
      = (if w.instances.contains selector then w.instances else w.instances ++ [selector]) := by
  rcases hqe : dom.querySelector selector with _ | x
  · exact absurd hqe hq
  · refine ⟨?_, ?_, ?_⟩ <;>
      simp [IntelliWidget.mount, hqe, hl, hh, hc, hb, injectHeadLoop, bodyScriptsLoop] <;>
      split <;> simp [hc, hb, bodyScriptsLoop]

/-- C3 witness: the amended theorem applied to the concrete never-fetched
widget and live page. -/
theorem mount_unfetched_succeeds_without_dom_mutation_witness :
    (unfetchedWidget.mount liveDom "#a").error = none
    ∧ (unfetchedWidget.mount liveDom "#a").dom = liveDom
    ∧ (unfetchedWidget.mount liveDom "#a").widget.instances
      = (if unfetchedWidget.instances.contains "#a" then unfetchedWidget.instances
        else unfetchedWidget.instances ++ ["#a"]) :=
  mount_unfetched_succeeds_without_dom_mutation unfetchedWidget liveDom "#a" rfl rfl rfl
    (by decide) rfl

/-- The standard 422 validation payload used to exhibit the untyped
rejection. -/
def validation422Resp : HttpResponse :=
  ⟨422,
    some (.obj [("detail",
      .arr [.obj [("loc", .arr [.str "body", .str "age"]), ("msg", .str "field required")]])]),
    "", []⟩

/-- C8 counterexample: at HTTP 422 with a standard validation payload — a
status that maps to a rejection — the rejection is a runtime `TypeError`,
not one of the typed SDK error kinds, refuting the typed-error half of the
claim (the state-preservation half survives and is proved separately). -/
theorem fetch_422_untyped_rejection_counterexample :
    validation422Resp.status = 422
    ∧ (unfetchedWidget.fetch .null validation422Resp).error
      = some (.jsError "TypeError: Cannot read properties of undefined (reading msg)")
    ∧ (IntelliError.jsError "TypeError: Cannot read properties of undefined (reading msg)").isSdkTyped
      = false := ⟨rfl, rfl, rfl⟩

/-- C8 (amended): every fetch hitting a status of the failure table
(400, 401, 404, 422, 500) rejects — with the fetcher typed error except
where a body-parsing or indexing slip raises a runtime error instead — and
leaves the instance state entirely untouched: the widget (in particular
`innerContent`, `headElements` and `bodyScripts`) keeps the value it had
before the call. -/
theorem fetch_failure_preserves_state (w : IntelliWidget) (locale : JsValue)
    (resp : HttpResponse) (h : resp.status ∈ ([400, 401, 404, 422, 500] : List Nat)) :
    (w.fetch locale resp).widget = w ∧ (w.fetch locale resp).error.isSome := by
  simp only [List.mem_cons, List.not_mem_nil, or_false] at h
  rcases h with h | h | h | h | h <;>
    rcases hb : resp.jsonBody with _ | body <;>
    simp [IntelliWidget.fetch, h, hb] <;>
    (repeat (first | split | simp))

/-- C8 witness: the amended theorem applied at HTTP 500. -/
theorem fetch_failure_preserves_state_witness :
    ((500 : Nat) ∈ ([400, 401, 404, 422, 500] : List Nat))
    ∧ (unfetchedWidget.fetch .null ⟨500, none, "boom", []⟩).widget = unfetchedWidget
    ∧ (unfetchedWidget.fetch .null ⟨500, none, "boom", []⟩).error.isSome :=
  ⟨by decide, fetch_failure_preserves_state unfetchedWidget .null ⟨500, none, "boom", []⟩ (by decide)⟩

/-- C6: on every successful fetch (any status outside the failure table),
the head-asset list is exactly the script elements declaring an external
src, in document order, followed by the style elements in document order,
followed by the link elements in document order — whatever their
interleaving in the fragment — and the body-script list is exactly the
scripts without an external src, in document order; the fetch resolves. -/
theorem fetch_success_head_asset_partition (w : IntelliWidget) (locale : JsValue)
    (resp : HttpResponse) (h : resp.status ∉ ([400, 401, 404, 422, 500] : List Nat)) :
    (w.fetch locale resp).widget.headElements
      = (domOrder resp.fragment).filter (fun e => e.nodeName == "SCRIPT" && e.src != "")
        ++ (domOrder resp.fragment).filter (fun e => e.nodeName == "STYLE")
        ++ (domOrder resp.fragment).filter (fun e => e.nodeName == "LINK")
    ∧ (w.fetch locale resp).widget.bodyScripts
      = (domOrder resp.fragment).filter (fun e => e.nodeName == "SCRIPT" && !(e.src != ""))
    ∧ (w.fetch locale resp).error = none := by
  simp only [List.mem_cons, List.not_mem_nil, or_false, not_or] at h
  obtain ⟨h1, h2, h3, h4, h5⟩ := h
  refine ⟨?_, ?_, ?_⟩ <;>
    simp [IntelliWidget.fetch, h1, h2, h3, h4, h5, List.filter_filter, Bool.and_comm]

/-- The flat-and-nested sample fragment: a link, then the widget root
containing a style and an external script, then an inline script, then a
second style. -/
def c6frag : List Elem :=
  [ .mk "LINK" "" [] "" []
  , .mk "DIV" "" ["intelli-widget"] "intelli-widget-id"
      [ .mk "STYLE" "" [] "css-one" []
      , .mk "SCRIPT" "https://cdn.example.com/a.js" [] "" [] ]
  , .mk "SCRIPT" "" [] "init()" []
  , .mk "STYLE" "" [] "css-two" [] ]

/-- C6 witness: the theorem applied to a 200 response whose fragment
interleaves links, styles and scripts at two nesting depths. -/
theorem fetch_success_head_asset_partition_witness :
    ((200 : Nat) ∉ ([400, 401, 404, 422, 500] : List Nat))
    ∧ ((unfetchedWidget.fetch .null ⟨200, none, "", c6frag⟩).widget.headElements
      = (domOrder c6frag).filter (fun e => e.nodeName == "SCRIPT" && e.src != "")
        ++ (domOrder c6frag).filter (fun e => e.nodeName == "STYLE")
        ++ (domOrder c6frag).filter (fun e => e.nodeName == "LINK")
    ∧ (unfetchedWidget.fetch .null ⟨200, none, "", c6frag⟩).widget.bodyScripts
      = (domOrder c6frag).filter (fun e => e.nodeName == "SCRIPT" && !(e.src != ""))
    ∧ (unfetchedWidget.fetch .null ⟨200, none, "", c6frag⟩).error = none) :=
  ⟨by decide, fetch_success_head_asset_partition unfetchedWidget .null ⟨200, none, "", c6frag⟩
    (by decide)⟩

theorem injectBodyScript_bodyAppended (w : IntelliWidget) (dom : Dom) (sc : Elem) (r : String) :
    (w.injectBodyScript dom sc (some r)).bodyAppended
      = dom.bodyAppended ++ [replaceAll sc.innerText "intelli-widget-id" r] := by
  simp only [IntelliWidget.injectBodyScript]
  split <;> rfl

theorem injectBodyScript_targets (w : IntelliWidget) (dom : Dom) (sc : Elem) (r : String) :
    (w.injectBodyScript dom sc (some r)).targets = dom.targets := by
  simp only [IntelliWidget.injectBodyScript]
  split <;> rfl

theorem bodyScriptsLoop_bodyAppended (w : IntelliWidget) (r : String) :
    ∀ (scripts : List Elem) (dom : Dom),
      (bodyScriptsLoop w dom scripts (some r)).bodyAppended
        = dom.bodyAppended
          ++ scripts.map (fun sc => replaceAll sc.innerText "intelli-widget-id" r) := by
  intro scripts
  induction scripts with
  | nil => intro dom; simp [bodyScriptsLoop]
  | cons sc rest ih =>
    intro dom
    simp only [bodyScriptsLoop, List.foldl_cons] at ih ⊢
    rw [ih, injectBodyScript_bodyAppended]
    simp

theorem bodyScriptsLoop_targets (w : IntelliWidget) (r : String) :
    ∀ (scripts : List Elem) (dom : Dom),
      (bodyScriptsLoop w dom scripts (some r)).targets = dom.targets := by
  intro scripts
  induction scripts with
  | nil => intro dom; simp [bodyScriptsLoop]
  | cons sc rest ih =>
    intro dom
    simp only [bodyScriptsLoop, List.foldl_cons] at ih ⊢
    rw [ih, injectBodyScript_targets]

/-- A fetched widget: the root content element is present. -/
def fetchedWidget : IntelliWidget := { unfetchedWidget with innerContent := some sampleWidgetDiv }

/-- C4 counterexample: the first mount of widget `w` writes the uid `w-0`
into the target (the placeholder count is read *before* the selector is
registered), while the mounted selector sits at 1-based position 1 of the
mount-point list — so the claimed uid `widgetId ++ "-" ++ (1-based
position)`, here `w-1`, is not the uid used. -/
theorem mount_uid_not_one_based_counterexample :
    fetchedWidget.instances = []
    ∧ (fetchedWidget.mount liveDom "#a").widget.instances = ["#a"]
    ∧ (fetchedWidget.mount liveDom "#a").dom.targets = [("#a", "<DIV>w-0</DIV>")]
    ∧ ("<DIV>w-0</DIV>" : String) ≠ "<DIV>" ++ ("w" ++ "-" ++ natToString 1) ++ "</DIV>" :=
  ⟨rfl, rfl, by decide, by decide⟩

/-- C4 (amended): the uid used for placeholder substitution in a
successful mount of a not-yet-tracked selector is `widgetId ++ "-" ++ n`
where `n` is the number of mount points tracked *before* registration
(the 1-based ordinal position of the new mount point, minus one); the
mount appends the selector, and because the count grew, the uid a
subsequent mount would use differs from this one — two sequential mounts
at distinct fresh selectors get distinct uids. -/
theorem mount_uid_zero_based_formula (w : IntelliWidget) (dom : Dom) (selector : String)
    (hh : w.headElements = []) (hq : dom.querySelector selector ≠ none)
    (hl : IntelliProveWidgets.loaded dom = true)
    (hs : selector ∉ w.instances) :
    (w.mount dom selector).error = none
    ∧ (w.mount dom selector).widget.instances = w.instances ++ [selector]
    ∧ (w.mount dom selector).dom.bodyAppended
      = dom.bodyAppended ++ w.bodyScripts.map (fun sc =>
          replaceAll sc.innerText "intelli-widget-id"
            (w.widgetId ++ "-" ++ natToString w.instances.length))
    ∧ (∀ c, w.innerContent = some c →
        (w.mount dom selector).dom.targets
          = setTargetAssoc dom.targets selector
            (replaceAll c.outerHTML "intelli-widget-id"
              (w.widgetId ++ "-" ++ natToString w.instances.length)))
    ∧ w.widgetId ++ "-" ++ natToString (w.instances ++ [selector]).length
      ≠ w.widgetId ++ "-" ++ natToString w.instances.length := by
  rcases hqe : dom.querySelector selector with _ | x
  · exact absurd hqe hq
  refine ⟨?_, ?_, ?_, ?_, ?_⟩
  · simp [IntelliWidget.mount, hqe, hl, hh, injectHeadLoop]
  · simp [IntelliWidget.mount, hqe, hl, hh, hs, injectHeadLoop]
  · rcases hc : w.innerContent with _ | c <;>
      simp [IntelliWidget.mount, hqe, hl, hh, hs, hc, injectHeadLoop,
        bodyScriptsLoop_bodyAppended, Dom.setTargetHtml]
  · intro c hc
    simp [IntelliWidget.mount, hqe, hl, hh, hs, hc, injectHeadLoop,
      bodyScriptsLoop_targets, Dom.setTargetHtml]
  · intro hcontr
    have := uid_count_inj w.widgetId _ _ hcontr
    simp at this

/-- A fetched widget carrying one inline body script, to exercise the
uid substitution of the body-script injection as well. -/
def mountReadyWidget : IntelliWidget :=
  { fetchedWidget with bodyScripts := [.mk "SCRIPT" "" [] "setup(intelli-widget-id)" []] }

/-- C4 witness: the amended theorem applied to the concrete first mount at
a live selector. -/
theorem mount_uid_zero_based_formula_witness :
    (mountReadyWidget.mount liveDom "#a").error = none
    ∧ (mountReadyWidget.mount liveDom "#a").widget.instances
      = mountReadyWidget.instances ++ ["#a"]
    ∧ (mountReadyWidget.mount liveDom "#a").dom.bodyAppended
      = liveDom.bodyAppended ++ mountReadyWidget.bodyScripts.map (fun sc =>
          replaceAll sc.innerText "intelli-widget-id"
            (mountReadyWidget.widgetId ++ "-" ++ natToString mountReadyWidget.instances.length))
    ∧ (mountReadyWidget.mount liveDom "#a").dom.targets
      = setTargetAssoc liveDom.targets "#a"
        (replaceAll sampleWidgetDiv.outerHTML "intelli-widget-id"
          (mountReadyWidget.widgetId ++ "-" ++ natToString mountReadyWidget.instances.length))
    ∧ mountReadyWidget.widgetId ++ "-"
        ++ natToString (mountReadyWidget.instances ++ ["#a"]).length
      ≠ mountReadyWidget.widgetId ++ "-" ++ natToString mountReadyWidget.instances.length := by
  have h := mount_uid_zero_based_formula mountReadyWidget liveDom "#a" rfl (by decide) rfl
    (by decide)
  exact ⟨h.1, h.2.1, h.2.2.1, h.2.2.2.1 sampleWidgetDiv rfl, h.2.2.2.2⟩

theorem mount_failure_keeps_instances (w : IntelliWidget) (dom : Dom) (s : String) :
    (w.mount dom s).error.isSome → (w.mount dom s).widget.instances = w.instances := by
  rcases hqe : dom.querySelector s with _ | x
  · intro _
    simp [IntelliWidget.mount, hqe]
  · simp only [IntelliWidget.mount, hqe]
    split
    · intro _
      rfl
    · split
      · intro _
        rfl
      · intro h
        simp at h

theorem mount_success_appends_instances (w : IntelliWidget) (dom : Dom) (s : String) :
    (w.mount dom s).error = none →
    (w.mount dom s).widget.instances
      = (if s ∈ w.instances then w.instances else w.instances ++ [s]) := by
  rcases hqe : dom.querySelector s with _ | x
  · intro h
    simp [IntelliWidget.mount, hqe] at h
  · simp only [IntelliWidget.mount, hqe]
    split
    · intro h
      simp at h
    · split
      · intro h
        simp at h
      · intro _
        split <;> simp_all [List.elem_iff]

theorem updateAllOutcomes_labels : ∀ (snap : List String) (dom : Dom) (w : IntelliWidget),
    (updateAllOutcomes dom w snap).map Prod.fst = snap := by
  intro snap
  induction snap with
  | nil => intro dom w; simp [updateAllOutcomes]
  | cons s rest ih =>
    intro dom w
    rcases hr : IntelliWidget.mount w dom s with ⟨rdom, rwidget, rerr⟩
    cases rerr <;> simp [updateAllOutcomes, hr, ih]

theorem updateAllLoop_instances : ∀ (snap : List String) (dom : Dom) (w : IntelliWidget),
    snap.Nodup → (∀ s ∈ snap, s ∉ w.instances) →
    (updateAllLoop dom w snap).2.instances
      = w.instances ++ ((updateAllOutcomes dom w snap).filter (fun p => p.2)).map Prod.fst := by
  intro snap
  induction snap with
  | nil => intro dom w _ _; simp [updateAllLoop, updateAllOutcomes]
  | cons s rest ih =>
    intro dom w hnd hdisj
    rcases List.nodup_cons.mp hnd with ⟨hs_not_rest, hnd_rest⟩
    rcases hr : IntelliWidget.mount w dom s with ⟨rdom, rwidget, rerr⟩
    cases rerr with
    | some e =>
      have hinst : rwidget.instances = w.instances := by
        have h := mount_failure_keeps_instances w dom s
        rw [hr] at h
        simpa using h
      have hdisj2 : ∀ t ∈ rest, t ∉ rwidget.instances := by
        intro t ht
        rw [hinst]
        exact hdisj t (List.mem_cons_of_mem s ht)
      simp only [updateAllLoop, updateAllOutcomes, hr]
      rw [ih _ _ hnd_rest hdisj2, hinst]
      simp
    | none =>
      have hsnot : s ∉ w.instances := hdisj s (List.mem_cons_self s rest)
      have hinst : rwidget.instances = w.instances ++ [s] := by
        have h := mount_success_appends_instances w dom s
        rw [hr] at h
        simpa [hsnot] using h
      have hdisj2 : ∀ t ∈ rest, t ∉ rwidget.instances := by
        intro t ht
        rw [hinst]
        simp only [List.mem_append, List.mem_singleton, not_or]
        refine ⟨hdisj t (List.mem_cons_of_mem s ht), ?_⟩
        intro hts
        exact hs_not_rest (hts ▸ ht)
      simp only [updateAllLoop, updateAllOutcomes, hr]
      rw [ih _ _ hnd_rest hdisj2, hinst]
      simp

/-- C9: after `updateAll`, the mount-point list holds exactly the
previously tracked selectors whose re-mount attempt succeeded, in their
original relative order (the failed ones are dropped for good); and the
re-mount attempts traverse exactly the previously tracked selectors in
order. -/
theorem updateAll_keeps_exactly_successful_remounts (w : IntelliWidget) (dom : Dom)
    (hnd : w.instances.Nodup) :
    (w.updateAll dom).2.instances
      = ((updateAllOutcomes dom { w with instances := [] } w.instances).filter
          (fun p => p.2)).map Prod.fst
    ∧ (updateAllOutcomes dom { w with instances := [] } w.instances).map Prod.fst
      = w.instances := by
  constructor
  · have h := updateAllLoop_instances w.instances dom { w with instances := [] } hnd (by simp)
    simpa [IntelliWidget.updateAll] using h
  · exact updateAllOutcomes_labels w.instances dom { w with instances := [] }

/-- A widget tracking two selectors, of which only the second still has a
live target. -/
def trackedWidget : IntelliWidget := { fetchedWidget with instances := ["#a", "#b"] }

/-- A page where only `#b` matches an element (loader ready). -/
def partialDom : Dom :=
  { emptyDom with
    targets := [("#b", "x")]
    chartDefined := true
    chartDataLabelsDefined := true }

/-- C9 witness: the theorem applied where the first tracked selector's
re-mount throws (no element) and the second succeeds. -/
theorem updateAll_keeps_exactly_successful_remounts_witness :
    trackedWidget.instances.Nodup
    ∧ ((trackedWidget.updateAll partialDom).2.instances
      = ((updateAllOutcomes partialDom { trackedWidget with instances := [] }
          trackedWidget.instances).filter (fun p => p.2)).map Prod.fst
    ∧ (updateAllOutcomes partialDom { trackedWidget with instances := [] }
        trackedWidget.instances).map Prod.fst = trackedWidget.instances) :=
  ⟨by decide, updateAll_keeps_exactly_successful_remounts trackedWidget partialDom (by decide)⟩
